import Mathlib

/-!
Formal model of the HPU accelerator-integration fragment: the 4-D weight-layout
permutation (`permute_params` in `Convolution_hpu_datamodule.py`), its gated
invocation in `DataLayoutPlugin.__init__`, `HPUStrategy.setup_optimizers`
(`pytorch_lightning/strategies/hpu.py`), and the `HPUParallelStrategy` hooks
(`lightning/fabric/strategies/parallel_hpu.py`): `setup_environment`,
`teardown`, `backward`, `optimizer_step`, and `__init__`.
-/

/-- A torch tensor, modelled as its list of axis extents (the shape) together
with an element-lookup function on multi-indices.  `param.data.permute(dims)`
only reorders the logical axes, so element lookup and shape are the whole
observable state for the properties at hand. -/
structure Tensor where
  extent : List Nat
  data : List Nat → Int

/-- Number of dimensions, `param.ndim` in torch. -/
def Tensor.ndim (t : Tensor) : Nat := t.extent.length

/-- Given a multi-index `a` into the permuted tensor, recover the multi-index
into the original tensor: the original axis `j` holds the value of `a` at the
position where `j` occurs in `dims`. -/
def fromPermutedIndex (dims : List Nat) (a : List Nat) : List Nat :=
  (List.range dims.length).map (fun j => a.getD (dims.findIdx (fun x => x == j)) 0)

/-- Semantics of `t.permute(dims)` in torch: the new shape at position `i` is
the old shape at position `dims[i]`, and the element at the new multi-index `a`
is the old element at the index reconstructed by `fromPermutedIndex`. -/
def torchPermute (dims : List Nat) (t : Tensor) : Tensor where
  extent := dims.map (fun i => t.extent.getD i 0)
  data := fun a => t.data (fromPermutedIndex dims a)

/-- The per-parameter body of `permute_params`: a rank-4 tensor is permuted by
`(2, 3, 1, 0)` when `to_filters_last` is true and by `(3, 2, 0, 1)` otherwise;
any tensor of other rank is left unchanged. -/
def permuteParam (to_filters_last : Bool) (t : Tensor) : Tensor :=
  if t.ndim = 4 then
    if to_filters_last then torchPermute [2, 3, 1, 0] t
    else torchPermute [3, 2, 0, 1] t
  else t

/-- Element-for-element equality of tensors: same extents, and the same value
at every multi-index of the tensor rank. -/
def TensorEqv (s t : Tensor) : Prop :=
  s.extent = t.extent ∧ ∀ idx : List Nat, idx.length = t.extent.length → s.data idx = t.data idx

/-- A named model parameter, one entry of `model.named_parameters()`. -/
structure Param where
  name : String
  tensor : Tensor

/-- Kind of a direct child layer of the model, as tested by the `isinstance`
checks in `DataLayoutPlugin.__init__`. -/
inductive LayerKind where
  | conv1d
  | conv2d
  | conv3d
  | other
deriving DecidableEq

/-- A model: its direct children (`model.children()`) and the flat list of its
named parameters (`model.named_parameters()`). -/
structure Model where
  children : List LayerKind
  params : List Param

/-- `permute_params(model, to_filters_last)`: every parameter of the model is
replaced by `permuteParam` of itself (rank-4 tensors are permuted, others kept). -/
def permute_params (model : Model) (to_filters_last : Bool) : Model :=
  { model with
    params := model.params.map (fun p => { p with tensor := permuteParam to_filters_last p.tensor }) }

/-- A concrete convolution weight of extents (16, 1, 3, 3), the shape of
`conv1.weight` in `ConvolutionOnHPU` (`Conv2d(1, 16, kernel_size=3)`). -/
def sampleConvWeight : Tensor where
  extent := [16, 1, 3, 3]
  data := fun idx => Int.ofNat (idx.foldl (fun a i => 100 * a + i) 1)

/-- A concrete rank-1 tensor, the shape of a 16-element bias vector. -/
def sampleBias : Tensor where
  extent := [16]
  data := fun idx => Int.ofNat (idx.foldl (fun a i => 100 * a + i) 1)

theorem exists_len_four {α : Type} {l : List α} (h : l.length = 4) :
    ∃ a b c d : α, l = [a, b, c, d] := by
  match l, h with
  | [a, b, c, d], _ => exact ⟨a, b, c, d, rfl⟩

theorem permuteParam_true_of_ndim4 (t : Tensor) (h : t.ndim = 4) :
    permuteParam true t = torchPermute [2, 3, 1, 0] t := by
  simp [permuteParam, h]

theorem permuteParam_false_of_ndim4 (t : Tensor) (h : t.ndim = 4) :
    permuteParam false t = torchPermute [3, 2, 0, 1] t := by
  simp [permuteParam, h]

/-- Claim C1: for every rank-4 tensor, the forward permutation followed by the
inverse permutation restores the original axis extents and yields a tensor
element-for-element identical to the input; in particular a tensor of extents
(16, 1, 3, 3) has extents (3, 3, 1, 16) after the forward permutation, and the
inverse permutation of that result returns the extents to (16, 1, 3, 3). -/
theorem C1_roundtrip (t : Tensor) (h : t.ndim = 4) :
    TensorEqv (permuteParam false (permuteParam true t)) t
    ∧ (permuteParam true sampleConvWeight).extent = [3, 3, 1, 16]
    ∧ (permuteParam false (permuteParam true sampleConvWeight)).extent = [16, 1, 3, 3] := by
  refine ⟨?_, by decide, by decide⟩
  rw [permuteParam_true_of_ndim4 t h]
  have h2 : (torchPermute [2, 3, 1, 0] t).ndim = 4 := rfl
  rw [permuteParam_false_of_ndim4 _ h2]
  obtain ⟨ext, dat⟩ := t
  have hlen : ext.length = 4 := h
  obtain ⟨a, b, c, d, rfl⟩ := exists_len_four hlen
  refine ⟨rfl, ?_⟩
  intro idx hidx
  have hidx4 : idx.length = 4 := hidx
  obtain ⟨i, j, k, l, rfl⟩ := exists_len_four hidx4
  rfl

theorem C1_roundtrip_witness :
    sampleConvWeight.ndim = 4
    ∧ TensorEqv (permuteParam false (permuteParam true sampleConvWeight)) sampleConvWeight :=
  ⟨by decide, (C1_roundtrip sampleConvWeight (by decide)).1⟩

/-- Claim C2: for every rank-4 tensor, the forward permutation has extents
(extent 2, extent 3, extent 1, extent 0) and its element at (r, s, c, k) is the
original element at (k, c, r, s); the inverse permutation has extents
(extent 3, extent 2, extent 0, extent 1). -/
theorem C2_permutation_correctness (t : Tensor) (r s c k : Nat) (h : t.ndim = 4) :
    (permuteParam true t).extent
      = [t.extent.getD 2 0, t.extent.getD 3 0, t.extent.getD 1 0, t.extent.getD 0 0]
    ∧ (permuteParam true t).data [r, s, c, k] = t.data [k, c, r, s]
    ∧ (permuteParam false t).extent
      = [t.extent.getD 3 0, t.extent.getD 2 0, t.extent.getD 0 0, t.extent.getD 1 0] := by
  rw [permuteParam_true_of_ndim4 t h, permuteParam_false_of_ndim4 t h]
  exact ⟨rfl, rfl, rfl⟩

theorem C2_permutation_correctness_witness :
    sampleConvWeight.ndim = 4
    ∧ (permuteParam true sampleConvWeight).extent = [3, 3, 1, 16]
    ∧ (permuteParam true sampleConvWeight).data [1, 2, 0, 7] = sampleConvWeight.data [7, 0, 1, 2]
    ∧ (permuteParam false sampleConvWeight).extent = [3, 3, 16, 1] := by
  have hmain := C2_permutation_correctness sampleConvWeight 1 2 0 7 (by decide)
  exact ⟨by decide, hmain.1, hmain.2.1, hmain.2.2⟩

/-- One iteration of the loop over `model.children()` in
`DataLayoutPlugin.__init__`: on a `Conv2d` child, when the HPU capability probe
is true, all parameters of the model are permuted to filters-last; every other
child kind only prints a message and leaves the model unchanged. -/
def dataLayoutStep (hpu_available : Bool) (m : Model) (layer : LayerKind) : Model :=
  match layer with
  | LayerKind.conv2d => if hpu_available then permute_params m true else m
  | _ => m

/-- `DataLayoutPlugin.__init__(model)`: iterate over the direct children of the
model, applying `dataLayoutStep` for each. -/
def DataLayoutPluginInit (hpu_available : Bool) (model : Model) : Model :=
  model.children.foldl (dataLayoutStep hpu_available) model

theorem foldl_dataLayoutStep_false (cs : List LayerKind) (m : Model) :
    cs.foldl (dataLayoutStep false) m = m := by
  induction cs generalizing m with
  | nil => rfl
  | cons c cs ih => cases c <;> simpa [dataLayoutStep] using ih m

theorem foldl_dataLayoutStep_no_conv2d (cs : List LayerKind) (m : Model)
    (h : cs.count LayerKind.conv2d = 0) :
    cs.foldl (dataLayoutStep true) m = m := by
  induction cs generalizing m with
  | nil => rfl
  | cons c cs ih =>
    cases c with
    | conv2d => simp [List.count_cons] at h
    | conv1d => simp [List.count_cons] at h; exact ih m h
    | conv3d => simp [List.count_cons] at h; exact ih m h
    | other => simp [List.count_cons] at h; exact ih m h

theorem foldl_dataLayoutStep_one_conv2d (cs : List LayerKind) (m : Model)
    (h : cs.count LayerKind.conv2d = 1) :
    cs.foldl (dataLayoutStep true) m = permute_params m true := by
  induction cs generalizing m with
  | nil => simp at h
  | cons c cs ih =>
    cases c with
    | conv2d =>
      simp [List.count_cons] at h
      exact foldl_dataLayoutStep_no_conv2d cs (permute_params m true) h
    | conv1d => simp [List.count_cons] at h; exact ih m h
    | conv3d => simp [List.count_cons] at h; exact ih m h
    | other => simp [List.count_cons] at h; exact ih m h

/-- A model with two direct `Conv2d` children and a single rank-4 parameter:
`DataLayoutPlugin.__init__` calls `permute_params` once per `Conv2d` child, so
the parameter is permuted twice, ending with extents (1, 16, 3, 3) instead of
the once-permuted (3, 3, 1, 16). -/
def twoConv2dModel : Model where
  children := [LayerKind.conv2d, LayerKind.conv2d]
  params := [{ name := "conv1.weight", tensor := sampleConvWeight }]

/-- Claim C3 counterexample: on a model with two `Conv2d` direct children and
one rank-4 parameter, the gated setup with the probe true does not permute the
parameter exactly once: it ends with extents (1, 16, 3, 3), while a single
permutation would give (3, 3, 1, 16). -/
theorem C3_counterexample :
    ((DataLayoutPluginInit true twoConv2dModel).params.map (fun p => p.tensor.extent))
      = [[1, 16, 3, 3]]
    ∧ ((permute_params twoConv2dModel true).params.map (fun p => p.tensor.extent))
      = [[3, 3, 1, 16]]
    ∧ ((DataLayoutPluginInit true twoConv2dModel).params.map (fun p => p.tensor.extent))
      ≠ ((permute_params twoConv2dModel true).params.map (fun p => p.tensor.extent)) := by
  exact ⟨by decide, by decide, by decide⟩

/-- Claim C3 (amended): with the probe true, `DataLayoutPlugin.__init__`
applies `permute_params` once per direct `Conv2d` child; for a model with
exactly one direct `Conv2d` child this permutes exactly the rank-4 parameters,
each once, and leaves every other-rank parameter untouched; with the probe
false no parameter is changed. -/
theorem C3_gating (m : Model) (h : m.children.count LayerKind.conv2d = 1) :
    DataLayoutPluginInit true m = permute_params m true
    ∧ DataLayoutPluginInit false m = m :=
  ⟨foldl_dataLayoutStep_one_conv2d m.children m h, foldl_dataLayoutStep_false m.children m⟩

/-- A model shaped like `ConvolutionOnHPU`: one `Conv2d` child and one other
child, one rank-4 parameter and one rank-1 parameter. -/
def oneConv2dModel : Model where
  children := [LayerKind.conv2d, LayerKind.other]
  params := [{ name := "conv1.weight", tensor := sampleConvWeight },
             { name := "l1.bias", tensor := sampleBias }]

theorem C3_gating_witness :
    oneConv2dModel.children.count LayerKind.conv2d = 1
    ∧ (DataLayoutPluginInit true oneConv2dModel = permute_params oneConv2dModel true
       ∧ DataLayoutPluginInit false oneConv2dModel = oneConv2dModel) :=
  ⟨by decide, C3_gating oneConv2dModel (by decide)⟩

/-- Claim C4: a parameter tensor whose rank is not 4 is left unchanged by
`permute_params` in either direction: same extents, same elements, a no-op. -/
theorem C4_rank_selectivity (t : Tensor) (h : t.ndim ≠ 4) :
    permuteParam true t = t ∧ permuteParam false t = t := by
  constructor <;> simp [permuteParam, h]

theorem C4_rank_selectivity_witness :
    sampleBias.ndim ≠ 4
    ∧ (permuteParam true sampleBias = sampleBias ∧ permuteParam false sampleBias = sampleBias) :=
  ⟨by decide, C4_rank_selectivity sampleBias (by decide)⟩

/-- Claim C5: applying the forward permutation twice in a row to the rank-4
tensor of extents (16, 1, 3, 3) is not the identity: the extents become
(1, 16, 3, 3), not (16, 1, 3, 3). -/
theorem C5_double_forward :
    (permuteParam true (permuteParam true sampleConvWeight)).extent = [1, 16, 3, 3]
    ∧ (permuteParam true (permuteParam true sampleConvWeight)).extent ≠ sampleConvWeight.extent := by
  exact ⟨by decide, by decide⟩

/-- An optimizer, an opaque collaborator of the strategy. -/
structure Optimizer where
  id : Nat

/-- Python exceptions raised by the modelled code. -/
inductive PyError where
  | misconfigurationException (msg : String)
  | valueError (msg : String)
deriving DecidableEq

/-- `HPUStrategy.setup_optimizers`: after the superclass has populated the
strategy's optimizer list from the trainer, raise a
`MisconfigurationException` when more than one optimizer is configured. -/
def setup_optimizers (optimizers : List Optimizer) : Except PyError Unit :=
  if optimizers.length > 1 then
    Except.error (PyError.misconfigurationException "HPUs currently only support one optimizer.")
  else Except.ok ()

/-- Claim C6: `HPUStrategy.setup_optimizers` raises a
`MisconfigurationException` at setup time if and only if more than one
optimizer is configured; with exactly one optimizer or none, no error is
raised. -/
theorem C6_single_optimizer (optimizers : List Optimizer) :
    (setup_optimizers optimizers
        = Except.error (PyError.misconfigurationException
            "HPUs currently only support one optimizer."))
      ↔ 1 < optimizers.length := by
  unfold setup_optimizers
  split_ifs with hlen
  · simp [hlen]
  · simpa using hlen

/-- Events observable in the `HPUParallelStrategy` hook bodies. -/
inductive HpuEvent where
  | superBackward
  | superOptimizerStep
  | markStep
deriving DecidableEq

/-- The `tensor` argument received by `DDPStrategy.backward` from
`HPUParallelStrategy.backward`: either an actual tensor value, or the
`torch.Tensor` class object itself. -/
inductive TensorArg where
  | value (t : Tensor)
  | tensorClass

/-- `HPUParallelStrategy.backward(tensor, module, *args, **kwargs)`: calls
`super().backward(tensor=Tensor, ...)` — forwarding the `torch.Tensor` class,
not the received tensor — and then, when torch is at most 1.13.1, calls
`htcore.mark_step()`.  The result is the argument forwarded to the superclass
together with the ordered event trace. -/
def backward (tensor : Tensor) (torchLE1131 : Bool) : TensorArg × List HpuEvent :=
  (TensorArg.tensorClass,
   HpuEvent.superBackward :: (if torchLE1131 then [HpuEvent.markStep] else []))

/-- `HPUParallelStrategy.optimizer_step(optimizer, **kwargs)`: calls the
superclass optimizer step, then, when torch is at most 1.13.1, calls
`htcore.mark_step()`, and returns the superclass output.  The result is the
returned value together with the ordered event trace. -/
def optimizer_step {α : Type} (torchLE1131 : Bool) (superOutput : α) : α × List HpuEvent :=
  (superOutput,
   HpuEvent.superOptimizerStep :: (if torchLE1131 then [HpuEvent.markStep] else []))

/-- Claim C7 counterexample: when the torch version is not at most 1.13.1, the
lazy-graph flush `htcore.mark_step` is invoked neither after `backward` nor
after `optimizer_step`, so the flush does not follow every backward call and
every optimizer step. -/
theorem C7_counterexample :
    HpuEvent.markStep ∉ (backward sampleConvWeight false).2
    ∧ HpuEvent.markStep ∉ (optimizer_step false (0 : Nat)).2 := by
  exact ⟨by decide, by decide⟩

/-- Claim C7 (amended): when the torch version is at most 1.13.1, the
lazy-graph flush `htcore.mark_step` is invoked after the superclass call in
every `backward` and after the superclass call in every `optimizer_step`; in
either case `optimizer_step` returns the value produced by the superclass
optimizer step. -/
theorem C7_flush_after_steps {α : Type} (t : Tensor) (r : α) :
    (backward t true).2 = [HpuEvent.superBackward, HpuEvent.markStep]
    ∧ (optimizer_step true r).1 = r
    ∧ (optimizer_step true r).2 = [HpuEvent.superOptimizerStep, HpuEvent.markStep]
    ∧ (optimizer_step false r).1 = r :=
  ⟨rfl, rfl, rfl, rfl⟩

/-- The process environment, a partial map from variable names to values. -/
abbrev Env := String → Option String

/-- `os.environ[key] = value`. -/
def envInsert (env : Env) (key value : String) : Env :=
  fun k => if k = key then some value else env k

/-- `os.environ.pop(key, None)`. -/
def envPop (env : Env) (key : String) : Env :=
  fun k => if k = key then none else env k

/-- `HPUParallelStrategy.setup_environment`: set `ID` to the local rank, and
when the process-group backend is `"hccl"` set `HCCL_DISTRIBUTED_BACKEND` to
`str(1)`; then call the (opaque) superclass setup. -/
def setup_environment (backend : Option String) (local_rank : Nat) (env : Env) : Env :=
  let env1 := envInsert env "ID" (toString local_rank)
  if backend = some "hccl" then envInsert env1 "HCCL_DISTRIBUTED_BACKEND" (toString 1)
  else env1

/-- `HPUParallelStrategy.teardown`: after the superclass teardown, pop `ID`
and `HCCL_DISTRIBUTED_BACKEND` from the process environment. -/
def teardown (env : Env) : Env :=
  envPop (envPop env "ID") "HCCL_DISTRIBUTED_BACKEND"

/-- Claim C8: `setup_environment` sets `ID` to the local rank and, exactly when
the process-group backend is `"hccl"`, sets `HCCL_DISTRIBUTED_BACKEND` to
`"1"`; `teardown` removes both variables, so after a setup followed by a
teardown neither variable remains set. -/
theorem C8_env_lifecycle (backend : Option String) (local_rank : Nat) (env : Env) :
    setup_environment backend local_rank env "ID" = some (toString local_rank)
    ∧ setup_environment backend local_rank env "HCCL_DISTRIBUTED_BACKEND"
        = (if backend = some "hccl" then some "1" else env "HCCL_DISTRIBUTED_BACKEND")
    ∧ teardown (setup_environment backend local_rank env) "ID" = none
    ∧ teardown (setup_environment backend local_rank env) "HCCL_DISTRIBUTED_BACKEND" = none := by
  unfold setup_environment teardown envInsert envPop
  split_ifs <;> simp_all <;> decide

/-- Events observable in `HPUParallelStrategy.__init__`. -/
inductive InitEvent where
  | superInit
deriving DecidableEq

/-- `HPUParallelStrategy.__init__`: when the HPU capability probe is false,
raise `ValueError` before anything else; otherwise run the superclass
constructor.  The result is the list of performed events together with the
outcome. -/
def HPUParallelStrategyInit (hpu_available : Bool) : List InitEvent × Except PyError Unit :=
  if hpu_available then ([InitEvent.superInit], Except.ok ())
  else ([], Except.error (PyError.valueError "`HPUParallelStrategy` requires HPU devices to run"))

/-- Claim C9: constructing `HPUParallelStrategy` when the HPU capability probe
reports the accelerator unavailable raises a `ValueError` before any
superclass initialization, so no strategy object is produced. -/
theorem C9_init_unavailable :
    (HPUParallelStrategyInit false).2
      = Except.error (PyError.valueError "`HPUParallelStrategy` requires HPU devices to run")
    ∧ (HPUParallelStrategyInit false).1 = []
    ∧ ∀ u : Unit, (HPUParallelStrategyInit false).2 ≠ Except.ok u := by
  refine ⟨rfl, rfl, ?_⟩
  intro u hcontra
  exact Except.noConfusion hcontra

/-- Claim C10: for every call to `HPUParallelStrategy.backward`, the value
forwarded to the superclass as its `tensor` argument is the `torch.Tensor`
class itself, never the tensor value received by the call. -/
theorem C10_backward_forwards_class (t : Tensor) (torchLE1131 : Bool) :
    (backward t torchLE1131).1 = TensorArg.tensorClass
    ∧ ∀ u : Tensor, (backward t torchLE1131).1 ≠ TensorArg.value u := by
  refine ⟨rfl, ?_⟩
  intro u hcontra
  exact TensorArg.noConfusion hcontra
